import Mathlib

/-!
Verification development for the teletype guest-portal layer.

The JavaScript sources modelled here are:
- src/lib/guest-portal-binding.js (class GuestPortalBinding)
- src/lib/portal-status-bar-indicator.js (class PortalStatusBarIndicator)
- src/test/real-time-package.test.js (the test suite, used where it pins
  behavior implemented outside the available sources)

JavaScript `Map` objects are embedded as association lists whose `set`
replaces an existing key in place and otherwise appends, mirroring
`Map.prototype.set`; `get` returns the value at the first (and, by the
uniqueness invariant, only) matching key.  Asynchronous methods are
embedded as sequential state transformers: the event loop is
single-threaded, so a completed `await` chain is a function from the
state before the call to the state after it.  A method that can throw a
TypeError at runtime (for example dereferencing an undefined field) is
embedded as an `Option`-returning function, `none` standing for the
raised exception.
-/

set_option autoImplicit false

universe u v

section GenericHelpers

variable {α : Type u} {β : Type v} [DecidableEq α]

/-- Embedding of `Map.prototype.get`: value at the first matching key. -/
def mapGet (l : List (α × β)) (k : α) : Option β :=
  match l with
  | [] => none
  | (k0, v0) :: rest => if k0 = k then some v0 else mapGet rest k

/-- Embedding of `Map.prototype.set`: replace the entry for `k` in place if it
exists, otherwise append the new entry. -/
def mapSet (l : List (α × β)) (k : α) (v : β) : List (α × β) :=
  match l with
  | [] => [(k, v)]
  | (k0, v0) :: rest => if k0 = k then (k, v) :: rest else (k0, v0) :: mapSet rest k v

/-- Embedding of `Map.prototype.delete`: remove the entry for `k`. -/
def mapDelete (l : List (α × β)) (k : α) : List (α × β) :=
  match l with
  | [] => []
  | (k0, v0) :: rest => if k0 = k then rest else (k0, v0) :: mapDelete rest k

/-- The association list has pairwise distinct keys, as a JavaScript `Map`
does by construction. -/
def NoDupKeys (l : List (α × β)) : Prop :=
  (l.map Prod.fst).Nodup

instance (l : List (α × β)) : Decidable (NoDupKeys l) := by
  unfold NoDupKeys; infer_instance

/-- Insertion at an index, as `Array.prototype.splice` / Atom's
`pane.addItem(item, opts)` with an explicit index inserts. -/
def insertAt (l : List α) (i : Nat) (x : α) : List α :=
  l.take i ++ x :: l.drop i

/-- Removal of the first occurrence, as Atom's `pane.removeItem(item)`
removes the item from the pane. -/
def removeFirst : List α → α → List α
  | [], _ => []
  | y :: ys, x => if y = x then ys else y :: removeFirst ys x

/-- Index of the first occurrence, as `Array.prototype.indexOf` (only used
under a membership guarantee). -/
def idxOf : List α → α → Nat
  | [], _ => 0
  | y :: ys, x => if y = x then 0 else idxOf ys x + 1

/-- Replacement of the first occurrence of `x` by `z`, in place. -/
def replaceFirst : List α → α → α → List α
  | [], _, _ => []
  | y :: ys, x, z => if y = x then z :: ys else y :: replaceFirst ys x z

end GenericHelpers

/-- A workspace pane item as the guest portal binding can display it: the
placeholder EmptyPortalPaneItem, or the TextEditor with the given
allocation id. -/
inductive PaneItem where
  | empty
  | editor (id : Nat)
deriving DecidableEq, Repr

/-- The slice of Atom's workspace this layer touches: the panes (lists of
pane items, head = active pane) and a log of the items handed to
`workspace.open`. -/
structure Workspace where
  panes : List (List PaneItem)
  opened : List PaneItem
deriving DecidableEq, Repr

/-- Embedding of `workspace.open(item)`: the item is added to the active
pane (a fresh pane if none exists) and recorded as opened. -/
def Workspace.openItem (w : Workspace) (item : PaneItem) : Workspace :=
  match w.panes with
  | [] => { panes := [[item]], opened := w.opened ++ [item] }
  | p :: rest => { panes := (p ++ [item]) :: rest, opened := w.opened ++ [item] }

/-- Embedding of the pane-swap in `replaceActivePaneItem`: find the pane
holding `old` (`workspace.paneForItem`), insert `item` at the index of
`old` (`pane.addItem` with `pane.getItems().indexOf`) and remove `old`
(`pane.removeItem`).  `none` when no pane holds `old`, where the
JavaScript would throw on the undefined pane. -/
def swapInPanes (panes : List (List PaneItem)) (old item : PaneItem) :
    Option (List (List PaneItem)) :=
  match panes with
  | [] => none
  | pane :: rest =>
    if old ∈ pane then
      some (removeFirst (insertAt pane (idxOf pane old) item) old :: rest)
    else
      (swapInPanes rest old item).map (fun rest' => pane :: rest')

/-- A user-visible notification added through the notification manager. -/
structure Notification where
  kind : String
  message : String
  description : Option String
  dismissable : Bool
deriving DecidableEq, Repr

/-- Modelled from the spec: the Portal object of the external
real-time-client engine, reduced to the slice this layer observes — its
site identities (`getSiteIdentity`, login only), whether this binding was
registered as delegate (`setDelegate`), and the disposed flag the tests
read (`portal.disposed`); `Portal.prototype.dispose` sets the flag, and a
second dispose of an already-disposed portal leaves it disposed. -/
structure Portal where
  identities : List (Nat × String)
  delegateSet : Bool
  disposed : Bool
deriving DecidableEq, Repr

/-- Embedding of `Portal.prototype.dispose` as observed by this layer. -/
def Portal.disposeModel (p : Portal) : Portal :=
  { p with disposed := true }

/-- The typed errors `client.joinPortal` can throw, from the `Errors`
namespace of the real-time client as `didFailToJoin` distinguishes them. -/
inductive JoinError where
  | portalNotFound
  | other (message : String)
deriving DecidableEq, Repr

/-- Outcome of the external `client.joinPortal(portalId)` call awaited by
`initialize`: a portal, a null portal, or a thrown error. -/
inductive JoinResult where
  | success (p : Portal)
  | nullPortal
  | failure (e : JoinError)
deriving DecidableEq, Repr

/-- Remote mirror of one document, identified by engine identity. -/
structure BufferProxy where
  id : Nat
deriving DecidableEq, Repr

/-- Remote mirror of one editor; exclusively associated with one
BufferProxy. -/
structure EditorProxy where
  id : Nat
  bufferProxy : BufferProxy
deriving DecidableEq, Repr

/-- A BufferBinding as the guest portal binding constructs it: it owns the
TextBuffer allocated for it (identified by allocation id). -/
structure BufferBinding where
  buffer : Nat
deriving DecidableEq, Repr

/-- An EditorBinding as the guest portal binding constructs it: it holds
the TextEditor allocated for it, which in turn was constructed on the
binding's buffer. -/
structure EditorBinding where
  editor : Nat
  buffer : Nat
deriving DecidableEq, Repr

/-- State of one GuestPortalBinding instance together with the slice of
the environment it mutates.  The fields up to `workspace` are the
instance fields of the class; the remaining fields log the externally
observable effects (notifications, emitter events, destroyed pane items,
subscription disposals, autoscroll and cursor initialisation calls,
proxy delegate registrations) and count object allocations (`new
TextBuffer`, `new TextEditor`, `new BufferBinding`, `new EditorBinding`),
with `nextId` the allocation-id supply. -/
structure GuestPortalBinding where
  portalId : String
  portal : Option Portal
  activePaneItem : Option PaneItem
  newActivePaneItem : Option PaneItem
  activeEditorBinding : Option EditorBinding
  editorBindingsByEditorProxy : List (EditorProxy × EditorBinding)
  bufferBindingsByBufferProxy : List (BufferProxy × BufferBinding)
  activePaneItemDestroySubscription : Option (PaneItem × Bool)
  workspace : Workspace
  notifications : List Notification
  didChangeCount : Nat
  didDisposeCount : Nat
  subscriptionDisposeCount : Nat
  destroyedItems : List PaneItem
  autoscrollLog : List Nat
  cursorInitLog : List Nat
  bufferProxyDelegates : List BufferProxy
  editorProxyDelegates : List EditorProxy
  nextId : Nat
  allocatedBuffers : Nat
  allocatedEditors : Nat
  allocatedBufferBindings : Nat
  allocatedEditorBindings : Nat
deriving DecidableEq, Repr

/-- The constructor of GuestPortalBinding: empty maps, no active pane
item, a fresh EmptyPortalPaneItem, no portal yet. -/
def GuestPortalBinding.new (portalId : String) (workspace : Workspace) :
    GuestPortalBinding where
  portalId := portalId
  portal := none
  activePaneItem := none
  newActivePaneItem := none
  activeEditorBinding := none
  editorBindingsByEditorProxy := []
  bufferBindingsByBufferProxy := []
  activePaneItemDestroySubscription := none
  workspace := workspace
  notifications := []
  didChangeCount := 0
  didDisposeCount := 0
  subscriptionDisposeCount := 0
  destroyedItems := []
  autoscrollLog := []
  cursorInitLog := []
  bufferProxyDelegates := []
  editorProxyDelegates := []
  nextId := 0
  allocatedBuffers := 0
  allocatedEditors := 0
  allocatedBufferBindings := 0
  allocatedEditorBindings := 0

/-- Embedding of `didFailToJoin(error)` (guest-portal-binding.js lines
108-121): distinguishes PortalNotFoundError from any other error and adds
a single dismissable error notification. -/
def GuestPortalBinding.didFailToJoin (s : GuestPortalBinding) (e : JoinError) :
    GuestPortalBinding :=
  match e with
  | JoinError.portalNotFound =>
    { s with notifications := s.notifications ++
        [{ kind := ("error"),
           message := ("Portal not found"),
           description := some ("No portal exists with that ID. Please ask your host to provide you with their current portal ID."),
           dismissable := true }] }
  | JoinError.other message =>
    { s with notifications := s.notifications ++
        [{ kind := ("error"),
           message := ("Failed to join portal"),
           description := some ("Attempting to join portal " ++ s.portalId ++ " failed with error: <code>" ++ message ++ "</code>"),
           dismissable := true }] }

/-- Embedding of `async initialize()` (guest-portal-binding.js lines 23-34),
parameterised by the outcome of the awaited external
`client.joinPortal(portalId)` call.  The try/catch makes the method total:
a thrown join error is routed to `didFailToJoin` and `false` is returned.
Note the assignment `this.portal = await ...` happens before the null
check, so a null result leaves `this.portal` null; a thrown error leaves
it untouched. -/
def GuestPortalBinding.initializePortal (s : GuestPortalBinding)
    (result : JoinResult) : GuestPortalBinding × Bool :=
  match result with
  | JoinResult.success p =>
    ({ s with portal := some { p with delegateSet := true } }, true)
  | JoinResult.nullPortal =>
    ({ s with portal := none }, false)
  | JoinResult.failure e =>
    (s.didFailToJoin e, false)

/-- Embedding of `dispose()` (guest-portal-binding.js lines 36-41): dispose
the active-pane-item destroy subscription if the field is set (the field
keeps referencing the now-inert subscription), destroy the active pane
item if set (the subscription was just deactivated, so this does not fire
`leave`), destroy the empty portal item, and fire the `didDispose`
callback.  Destroyed items are also removed from the workspace panes, as
destroying an Atom pane item removes it from its pane. -/
def GuestPortalBinding.dispose (s : GuestPortalBinding) : GuestPortalBinding :=
  let s1 :=
    match s.activePaneItemDestroySubscription with
    | some (target, _) =>
      { s with activePaneItemDestroySubscription := some (target, false),
               subscriptionDisposeCount := s.subscriptionDisposeCount + 1 }
    | none => s
  let s2 :=
    match s1.activePaneItem with
    | some item =>
      { s1 with destroyedItems := s1.destroyedItems ++ [item],
                workspace := { s1.workspace with
                  panes := s1.workspace.panes.map (fun pane => removeFirst pane item) } }
    | none => s1
  { s2 with destroyedItems := s2.destroyedItems ++ [PaneItem.empty],
            workspace := { s2.workspace with
              panes := s2.workspace.panes.map (fun pane => removeFirst pane PaneItem.empty) },
            didDisposeCount := s2.didDisposeCount + 1 }

/-- Embedding of `siteDidJoin(siteId)` (guest-portal-binding.js lines
43-48): look up the host's and the joining site's login on the portal and
add an info notification, then emit `did-change`.  `none` models the
TypeError the JavaScript raises when `this.portal` is not set or
`getSiteIdentity` yields nothing to destructure. -/
def GuestPortalBinding.siteDidJoin (s : GuestPortalBinding) (siteId : Nat) :
    Option GuestPortalBinding :=
  match s.portal with
  | none => none
  | some portal =>
    match mapGet portal.identities 1, mapGet portal.identities siteId with
    | some hostLogin, some siteLogin =>
      some { s with
        notifications := s.notifications ++
          [{ kind := ("info"),
             message := ("@" ++ siteLogin ++ " has joined @" ++ hostLogin ++ "\x27s portal"),
             description := none,
             dismissable := false }],
        didChangeCount := s.didChangeCount + 1 }
    | _, _ => none

/-- Embedding of `siteDidLeave(siteId)` (guest-portal-binding.js lines
50-55), identical to `siteDidJoin` up to the notification text. -/
def GuestPortalBinding.siteDidLeave (s : GuestPortalBinding) (siteId : Nat) :
    Option GuestPortalBinding :=
  match s.portal with
  | none => none
  | some portal =>
    match mapGet portal.identities 1, mapGet portal.identities siteId with
    | some hostLogin, some siteLogin =>
      some { s with
        notifications := s.notifications ++
          [{ kind := ("info"),
             message := ("@" ++ siteLogin ++ " has left @" ++ hostLogin ++ "\x27s portal"),
             description := none,
             dismissable := false }],
        didChangeCount := s.didChangeCount + 1 }
    | _, _ => none

/-- Embedding of `async replaceActivePaneItem(newActivePaneItem)`
(guest-portal-binding.js lines 151-167).  If an active pane item exists,
the new item is inserted in that item's pane at its index and the old
item is removed; otherwise the new item goes through `workspace.open`.
Then the binding commits `activePaneItem`, disposes the previous destroy
subscription if the field was set, and subscribes `leave` to the new
item's destruction.  The transient `this.newActivePaneItem` field is set
at entry and cleared before returning, so it is `none` in the result.
`none` models the TypeError raised when the recorded active pane item is
in no pane. -/
def GuestPortalBinding.replaceActivePaneItem (s : GuestPortalBinding)
    (newActivePaneItem : PaneItem) : Option GuestPortalBinding :=
  (match s.activePaneItem with
   | some old =>
     (swapInPanes s.workspace.panes old newActivePaneItem).map
       (fun panes' => { s.workspace with panes := panes' })
   | none => some (s.workspace.openItem newActivePaneItem)).map (fun w =>
    { s with
      workspace := w,
      activePaneItem := some newActivePaneItem,
      newActivePaneItem := none,
      subscriptionDisposeCount := s.subscriptionDisposeCount +
        (match s.activePaneItemDestroySubscription with
         | some _ => 1
         | none => 0),
      activePaneItemDestroySubscription := some (newActivePaneItem, true) })

/-- Embedding of the buffer-binding half of `setActiveEditorProxy`
(guest-portal-binding.js lines 68-80): reuse the BufferBinding mapped to
the buffer proxy, or construct a TextBuffer and a BufferBinding, wire the
delegate both ways, and record the pair in
`bufferBindingsByBufferProxy`. -/
def GuestPortalBinding.resolveBufferBinding (s : GuestPortalBinding)
    (bufferProxy : BufferProxy) : GuestPortalBinding × BufferBinding :=
  match mapGet s.bufferBindingsByBufferProxy bufferProxy with
  | some bufferBinding => (s, bufferBinding)
  | none =>
    let buffer := s.nextId
    let bufferBinding : BufferBinding := { buffer := buffer }
    ({ s with
        nextId := s.nextId + 1,
        allocatedBuffers := s.allocatedBuffers + 1,
        allocatedBufferBindings := s.allocatedBufferBindings + 1,
        bufferProxyDelegates := s.bufferProxyDelegates ++ [bufferProxy],
        bufferBindingsByBufferProxy :=
          mapSet s.bufferBindingsByBufferProxy bufferProxy bufferBinding },
     bufferBinding)

/-- Embedding of the editor-binding half of `setActiveEditorProxy`
(guest-portal-binding.js lines 63-92): reuse the EditorBinding mapped to
the editor proxy — skipping all construction — or resolve the
BufferBinding, construct a TextEditor on its buffer and an EditorBinding,
wire the delegate both ways, initialise the cursor, and record the pair
in `editorBindingsByEditorProxy`. -/
def GuestPortalBinding.resolveEditorBinding (s : GuestPortalBinding)
    (editorProxy : EditorProxy) : GuestPortalBinding × EditorBinding :=
  match mapGet s.editorBindingsByEditorProxy editorProxy with
  | some editorBinding => (s, editorBinding)
  | none =>
    let resolved := s.resolveBufferBinding editorProxy.bufferProxy
    let s1 := resolved.1
    let bufferBinding := resolved.2
    let editor := s1.nextId
    let editorBinding : EditorBinding :=
      { editor := editor, buffer := bufferBinding.buffer }
    ({ s1 with
        nextId := s1.nextId + 1,
        allocatedEditors := s1.allocatedEditors + 1,
        allocatedEditorBindings := s1.allocatedEditorBindings + 1,
        editorProxyDelegates := s1.editorProxyDelegates ++ [editorProxy],
        cursorInitLog := s1.cursorInitLog ++ [editor],
        editorBindingsByEditorProxy :=
          mapSet s1.editorBindingsByEditorProxy editorProxy editorBinding },
     editorBinding)

/-- Embedding of `async setActiveEditorProxy(editorProxy)`
(guest-portal-binding.js lines 57-97).  A null proxy replaces the
displayed item with the EmptyPortalPaneItem placeholder; a non-null proxy
resolves or creates the binding pair, records the active editor binding,
replaces the displayed item with that binding's editor, and autoscrolls
to the last host selection. -/
def GuestPortalBinding.setActiveEditorProxy (s : GuestPortalBinding)
    (editorProxy : Option EditorProxy) : Option GuestPortalBinding :=
  match editorProxy with
  | none => s.replaceActivePaneItem PaneItem.empty
  | some ep =>
    let resolved := s.resolveEditorBinding ep
    let s1 := resolved.1
    let editorBinding := resolved.2
    let s2 := { s1 with activeEditorBinding := some editorBinding }
    (s2.replaceActivePaneItem (PaneItem.editor editorBinding.editor)).map
      (fun s3 =>
        { s3 with autoscrollLog := s3.autoscrollLog ++ [editorBinding.editor] })

/-- Embedding of `hostDidClosePortal()` (guest-portal-binding.js lines
123-129): add the portal-closed info notification and clear the
`activePaneItem` tracking. -/
def GuestPortalBinding.hostDidClosePortal (s : GuestPortalBinding) :
    GuestPortalBinding :=
  { s with
    notifications := s.notifications ++
      [{ kind := ("info"),
         message := ("Portal closed"),
         description := some ("Your host stopped sharing their editor."),
         dismissable := true }],
    activePaneItem := none }

/-- Embedding of `hostDidLoseConnection()` (guest-portal-binding.js lines
131-140): add the lost-connection info notification and clear the
`activePaneItem` tracking. -/
def GuestPortalBinding.hostDidLoseConnection (s : GuestPortalBinding) :
    GuestPortalBinding :=
  { s with
    notifications := s.notifications ++
      [{ kind := ("info"),
         message := ("Portal closed"),
         description := some ("We haven\x27t heard from the host in a while.\nOnce your host is back online, they can share a new portal with you to resume collaborating."),
         dismissable := true }],
    activePaneItem := none }

/-- Embedding of `leave()` (guest-portal-binding.js lines 142-144):
`this.portal.dispose()`.  `none` models the TypeError raised when
`this.portal` was never assigned (no successful initialize). -/
def GuestPortalBinding.leave (s : GuestPortalBinding) :
    Option GuestPortalBinding :=
  match s.portal with
  | none => none
  | some p => some { s with portal := some p.disposeModel }

/-- Destruction of a pane item by the environment (for example the user
closing the tab): the item leaves the workspace, and if the binding's
destroy subscription is active on this item, its `leave` callback runs. -/
def GuestPortalBinding.destroyPaneItem (s : GuestPortalBinding)
    (item : PaneItem) : Option GuestPortalBinding :=
  let s1 := { s with
    workspace := { s.workspace with
      panes := s.workspace.panes.map (fun pane => removeFirst pane item) },
    destroyedItems := s.destroyedItems ++ [item] }
  match s.activePaneItemDestroySubscription with
  | some (target, active) =>
    if active then
      if target = item then s1.leave else some s1
    else some s1
  | none => some s1

/-- The `didDispose` callback wired into each constructed BufferBinding
(guest-portal-binding.js line 75): remove its entry from the map. -/
def GuestPortalBinding.bufferBindingDidDispose (s : GuestPortalBinding)
    (bufferProxy : BufferProxy) : GuestPortalBinding :=
  { s with bufferBindingsByBufferProxy :=
      mapDelete s.bufferBindingsByBufferProxy bufferProxy }

/-- The `didDispose` callback wired into each constructed EditorBinding
(guest-portal-binding.js line 86): remove its entry from the map. -/
def GuestPortalBinding.editorBindingDidDispose (s : GuestPortalBinding)
    (editorProxy : EditorProxy) : GuestPortalBinding :=
  { s with editorBindingsByEditorProxy :=
      mapDelete s.editorBindingsByEditorProxy editorProxy }

/-- A sequence of `setActiveEditorProxy` calls, stopping at the first
raised exception. -/
def GuestPortalBinding.runProxies (s : GuestPortalBinding) :
    List (Option EditorProxy) → Option GuestPortalBinding
  | [] => some s
  | p :: ps =>
    match s.setActiveEditorProxy p with
    | none => none
    | some s1 => s1.runProxies ps

/-- State of one PortalStatusBarIndicator element
(portal-status-bar-indicator.js): whether the element's `onclick` property
still holds the bound `handleInitialClick` (installed by the constructor,
line 10), and how many times the initialisation body of
`handleInitialClick` (lines 44-70: portal-binding-manager lookup,
authentication provider setup, popover construction, tooltip
registration) has started. -/
structure PortalStatusBarIndicator where
  onclickInstalled : Bool
  initialClickHandlerRuns : Nat
deriving DecidableEq, Repr

/-- The constructor (portal-status-bar-indicator.js lines 6-11): the click
handler is installed, the initialisation has never run. -/
def PortalStatusBarIndicator.new : PortalStatusBarIndicator where
  onclickInstalled := true
  initialClickHandlerRuns := 0

/-- A click on the element.  If `onclick` holds the handler, the handler
runs: its first synchronous statement is `this.element.onclick = null`
(line 45), executed before the first `await`, so the handler is removed
before any asynchronous initialisation begins and before any further
click can be dispatched; the initialisation body then runs (counted
here).  Nothing in the class ever re-assigns `element.onclick`, so a
click on a handler-free element (including the re-dispatched
`this.element.click()` on line 69 and any click while the awaits are
pending) runs no handler. -/
def PortalStatusBarIndicator.click (s : PortalStatusBarIndicator) :
    PortalStatusBarIndicator :=
  if s.onclickInstalled then
    { onclickInstalled := false,
      initialClickHandlerRuns := s.initialClickHandlerRuns + 1 }
  else s

/-- The element after `n` clicks on a freshly constructed indicator. -/
def PortalStatusBarIndicator.clicks : Nat → PortalStatusBarIndicator
  | 0 => PortalStatusBarIndicator.new
  | n + 1 => (PortalStatusBarIndicator.clicks n).click

/-- The three shapes of host file a guest document can mirror: an untitled
buffer, a file opened without a project, and a file inside a project
(identified by the project directory's name and the path inside it). -/
inductive HostFile where
  | untitled
  | standalone (absPath : String)
  | inProject (projectDirName : String) (relativePath : String)
deriving DecidableEq, Repr

/-- Characters of the component after the last separator. -/
def baseNameChars : List Char → List Char → List Char
  | [], acc => acc.reverse
  | c :: cs, acc => if c = '/' then baseNameChars cs [] else baseNameChars cs (c :: acc)

/-- Base name of a path: the component after the last separator. -/
def baseName (p : String) : String :=
  String.mk (baseNameChars p.data [])

/-- Modelled from the spec: the synthetic-path derivation for remote
documents is implemented outside the available sources (in the remote
pane item the guest workspace displays); the test `guest portal file
path` (real-time-package.test.js lines 714-743) pins its value on each
of the three shapes — `remote:untitled` for an untitled host buffer,
`remote:` followed by the host's full absolute path for a file opened
without a project, and `remote:` followed by the path relative to the
project root's parent (so it starts with the project directory's name)
for a file inside a project.  This is the suffix after the scheme
marker. -/
def remotePathSuffix : HostFile → String
  | HostFile.untitled => ("untitled")
  | HostFile.standalone absPath => absPath
  | HostFile.inProject projectDirName relativePath =>
      projectDirName ++ "/" ++ relativePath

/-- The guest pane item's `getPath()`, as asserted by the test: the fixed
scheme marker `remote:` followed by the derived suffix. -/
def remoteGetPath (f : HostFile) : String :=
  "remote:" ++ remotePathSuffix f

/-- The guest pane item's title, as asserted by the test: `Remote Buffer: `
followed by the base name of the derived path. -/
def remoteTitle (f : HostFile) : String :=
  "Remote Buffer: " ++ baseName (remotePathSuffix f)

/-- The derivation as the claim words it: the path relative to the host's
project root for a file inside a project, the bare name for a file opened
without a project, and `untitled` for untitled documents, each behind the
scheme marker. -/
def claimedGetPath : HostFile → String
  | HostFile.untitled => "remote:" ++ "untitled"
  | HostFile.standalone absPath => "remote:" ++ baseName absPath
  | HostFile.inProject _ relativePath => "remote:" ++ relativePath

/-- A workspace with one (empty) pane, as a fresh Atom environment
provides. -/
def wsExample : Workspace := { panes := [[]], opened := [] }

/-- A joined portal with a host (site 1) and one guest (site 2). -/
def portalExample : Portal :=
  { identities := [(1, "host-user"), (2, "guest-user")],
    delegateSet := true,
    disposed := false }

/-- A guest portal binding immediately after a successful initialize. -/
def gpExample : GuestPortalBinding :=
  { GuestPortalBinding.new ("portal-1") wsExample with portal := some portalExample }

/-- A concrete remote editor proxy over a concrete buffer proxy. -/
def epExample : EditorProxy := { id := 10, bufferProxy := { id := 20 } }

/-- The example binding after activating the null editor proxy. -/
def gpExampleAfterNone : GuestPortalBinding :=
  (gpExample.setActiveEditorProxy none).getD gpExample

/-- The example binding after activating `epExample` once. -/
def gpExampleAfterOpen : GuestPortalBinding :=
  (gpExample.setActiveEditorProxy (some epExample)).getD gpExample

/-- The example binding after activating `epExample` a second time. -/
def gpExampleAfterTwo : GuestPortalBinding :=
  (gpExampleAfterOpen.setActiveEditorProxy (some epExample)).getD gpExampleAfterOpen

/-- The notification `hostDidClosePortal` adds. -/
def portalClosedNotification : Notification :=
  { kind := ("info"),
    message := ("Portal closed"),
    description := some ("Your host stopped sharing their editor."),
    dismissable := true }

/-- The notification `hostDidLoseConnection` adds. -/
def connectionLostNotification : Notification :=
  { kind := ("info"),
    message := ("Portal closed"),
    description := some ("We haven\x27t heard from the host in a while.\nOnce your host is back online, they can share a new portal with you to resume collaborating."),
    dismissable := true }

/-- The example binding after a site with id 2 joins. -/
def gpExampleJoined : GuestPortalBinding :=
  (gpExample.siteDidJoin 2).getD gpExample

section GenericHelperLemmas

variable {α : Type u} {β : Type v} [DecidableEq α]

theorem mapGet_mapSet_self (l : List (α × β)) (k : α) (v : β) :
    mapGet (mapSet l k v) k = some v := by
  induction l with
  | nil => simp [mapGet, mapSet]
  | cons hd tl ih =>
    obtain ⟨k0, v0⟩ := hd
    by_cases h : k0 = k <;> simp [mapGet, mapSet, h, ih]

theorem mapGet_eq_none_iff (l : List (α × β)) (k : α) :
    mapGet l k = none ↔ k ∉ l.map Prod.fst := by
  induction l with
  | nil => simp [mapGet]
  | cons hd tl ih =>
    obtain ⟨k0, v0⟩ := hd
    by_cases h : k0 = k
    · subst h
      simp [mapGet]
    · have h' : ¬ k = k0 := fun hh => h hh.symm
      simp [mapGet, h, h', ih]

theorem keys_mapSet (l : List (α × β)) (k : α) (v : β) :
    (mapSet l k v).map Prod.fst =
      if k ∈ l.map Prod.fst then l.map Prod.fst else l.map Prod.fst ++ [k] := by
  induction l with
  | nil => simp [mapSet]
  | cons hd tl ih =>
    obtain ⟨k0, v0⟩ := hd
    by_cases h : k0 = k
    · subst h
      simp [mapSet]
    · have h' : ¬ k = k0 := fun hh => h hh.symm
      by_cases hmem : k ∈ tl.map Prod.fst
      · simp [mapSet, h, h', hmem, ih]
      · simp [mapSet, h, h', hmem, ih]

theorem noDupKeys_mapSet (l : List (α × β)) (k : α) (v : β)
    (h : NoDupKeys l) : NoDupKeys (mapSet l k v) := by
  unfold NoDupKeys at h ⊢
  rw [keys_mapSet]
  by_cases hmem : k ∈ l.map Prod.fst
  · simpa [hmem] using h
  · simp only [hmem, if_false]
    rw [List.nodup_append]
    refine ⟨h, List.nodup_singleton k, ?_⟩
    intro a ha hk
    simp at hk
    exact hmem (hk ▸ ha)

/-- Inserting the new element at the old element's index and then removing
the first occurrence of the old element is an in-place replacement. -/
theorem insert_then_remove_eq_replaceFirst (l : List α) (old x : α)
    (h : old ∈ l) :
    removeFirst (insertAt l (idxOf l old) x) old = replaceFirst l old x := by
  induction l with
  | nil => cases h
  | cons y ys ih =>
    by_cases hy : y = old
    · subst hy
      have h1 : idxOf (y :: ys) y = 0 := by simp [idxOf]
      have h2 : insertAt (y :: ys) 0 x = x :: y :: ys := by simp [insertAt]
      rw [h1, h2]
      by_cases hx : x = y
      · simp [removeFirst, replaceFirst, hx]
      · simp [removeFirst, replaceFirst, hx]
    · have hmem : old ∈ ys := by
        cases h with
        | head => exact absurd rfl hy
        | tail _ h' => exact h'
      have h1 : idxOf (y :: ys) old = idxOf ys old + 1 := by simp [idxOf, hy]
      have h2 : insertAt (y :: ys) (idxOf ys old + 1) x =
          y :: insertAt ys (idxOf ys old) x := by
        simp [insertAt]
      rw [h1, h2]
      simp [removeFirst, replaceFirst, hy, ih hmem]

end GenericHelperLemmas

theorem GuestPortalBinding.resolveBufferBinding_hit
    (s : GuestPortalBinding) (bp : BufferProxy) (bb : BufferBinding)
    (h : mapGet s.bufferBindingsByBufferProxy bp = some bb) :
    s.resolveBufferBinding bp = (s, bb) := by
  simp [GuestPortalBinding.resolveBufferBinding, h]

theorem GuestPortalBinding.resolveBufferBinding_miss
    (s : GuestPortalBinding) (bp : BufferProxy)
    (h : mapGet s.bufferBindingsByBufferProxy bp = none) :
    s.resolveBufferBinding bp =
      ({ s with
          nextId := s.nextId + 1,
          allocatedBuffers := s.allocatedBuffers + 1,
          allocatedBufferBindings := s.allocatedBufferBindings + 1,
          bufferProxyDelegates := s.bufferProxyDelegates ++ [bp],
          bufferBindingsByBufferProxy :=
            mapSet s.bufferBindingsByBufferProxy bp { buffer := s.nextId } },
       { buffer := s.nextId }) := by
  simp [GuestPortalBinding.resolveBufferBinding, h]

theorem GuestPortalBinding.resolveEditorBinding_hit
    (s : GuestPortalBinding) (ep : EditorProxy) (eb : EditorBinding)
    (h : mapGet s.editorBindingsByEditorProxy ep = some eb) :
    s.resolveEditorBinding ep = (s, eb) := by
  simp [GuestPortalBinding.resolveEditorBinding, h]

theorem GuestPortalBinding.resolveEditorBinding_miss
    (s : GuestPortalBinding) (ep : EditorProxy)
    (h : mapGet s.editorBindingsByEditorProxy ep = none) :
    s.resolveEditorBinding ep =
      ({ (s.resolveBufferBinding ep.bufferProxy).1 with
          nextId := (s.resolveBufferBinding ep.bufferProxy).1.nextId + 1,
          allocatedEditors :=
            (s.resolveBufferBinding ep.bufferProxy).1.allocatedEditors + 1,
          allocatedEditorBindings :=
            (s.resolveBufferBinding ep.bufferProxy).1.allocatedEditorBindings + 1,
          editorProxyDelegates :=
            (s.resolveBufferBinding ep.bufferProxy).1.editorProxyDelegates ++ [ep],
          cursorInitLog :=
            (s.resolveBufferBinding ep.bufferProxy).1.cursorInitLog ++
              [(s.resolveBufferBinding ep.bufferProxy).1.nextId],
          editorBindingsByEditorProxy :=
            mapSet (s.resolveBufferBinding ep.bufferProxy).1.editorBindingsByEditorProxy
              ep
              { editor := (s.resolveBufferBinding ep.bufferProxy).1.nextId,
                buffer := (s.resolveBufferBinding ep.bufferProxy).2.buffer } },
       { editor := (s.resolveBufferBinding ep.bufferProxy).1.nextId,
         buffer := (s.resolveBufferBinding ep.bufferProxy).2.buffer }) := by
  simp [GuestPortalBinding.resolveEditorBinding, h]

theorem GuestPortalBinding.resolveEditorBinding_mapGet
    (s : GuestPortalBinding) (ep : EditorProxy) :
    mapGet (s.resolveEditorBinding ep).1.editorBindingsByEditorProxy ep =
      some (s.resolveEditorBinding ep).2 := by
  cases hg : mapGet s.editorBindingsByEditorProxy ep with
  | some eb =>
    rw [GuestPortalBinding.resolveEditorBinding_hit s ep eb hg]
    exact hg
  | none =>
    rw [GuestPortalBinding.resolveEditorBinding_miss s ep hg]
    exact mapGet_mapSet_self _ _ _

theorem GuestPortalBinding.replaceActivePaneItem_shape
    (s : GuestPortalBinding) (item : PaneItem) (s' : GuestPortalBinding)
    (h : s.replaceActivePaneItem item = some s') :
    ∃ w c, s' =
      { s with
        workspace := w,
        activePaneItem := some item,
        newActivePaneItem := none,
        subscriptionDisposeCount := c,
        activePaneItemDestroySubscription := some (item, true) } := by
  cases hap : s.activePaneItem with
  | none =>
    simp only [GuestPortalBinding.replaceActivePaneItem, hap, Option.map_some'] at h
    injection h with h
    exact ⟨_, _, h.symm⟩
  | some old =>
    cases hsw : swapInPanes s.workspace.panes old item with
    | none =>
      simp [GuestPortalBinding.replaceActivePaneItem, hap, hsw] at h
    | some panes' =>
      simp only [GuestPortalBinding.replaceActivePaneItem, hap, hsw,
        Option.map_some'] at h
      injection h with h
      exact ⟨_, _, h.symm⟩

theorem GuestPortalBinding.replaceActivePaneItem_workspace
    (s : GuestPortalBinding) (item : PaneItem) (s' : GuestPortalBinding)
    (h : s.replaceActivePaneItem item = some s') :
    (∀ old, s.activePaneItem = some old →
      ∃ panes', swapInPanes s.workspace.panes old item = some panes' ∧
        s'.workspace = { s.workspace with panes := panes' }) ∧
    (s.activePaneItem = none → s'.workspace = s.workspace.openItem item) := by
  cases hap : s.activePaneItem with
  | none =>
    simp only [GuestPortalBinding.replaceActivePaneItem, hap, Option.map_some'] at h
    injection h with h
    subst h
    constructor
    · intro old hold
      exact Option.noConfusion hold
    · intro _
      rfl
  | some old =>
    cases hsw : swapInPanes s.workspace.panes old item with
    | none =>
      simp [GuestPortalBinding.replaceActivePaneItem, hap, hsw] at h
    | some panes' =>
      simp only [GuestPortalBinding.replaceActivePaneItem, hap, hsw,
        Option.map_some'] at h
      injection h with h
      subst h
      constructor
      · intro old' hold'
        injection hold' with hold'
        subst hold'
        exact ⟨panes', hsw, rfl⟩
      · intro hnone
        exact Option.noConfusion hnone

theorem swapInPanes_spec (panes : List (List PaneItem)) (old item : PaneItem)
    (panes' : List (List PaneItem))
    (h : swapInPanes panes old item = some panes') :
    ∃ pi pane, panes.get? pi = some pane ∧ old ∈ pane ∧
      panes' = panes.set pi (replaceFirst pane old item) := by
  induction panes generalizing panes' with
  | nil => simp [swapInPanes] at h
  | cons pane rest ih =>
    by_cases hmem : old ∈ pane
    · rw [swapInPanes, if_pos hmem] at h
      injection h with h
      refine ⟨0, pane, rfl, hmem, ?_⟩
      rw [← h, insert_then_remove_eq_replaceFirst pane old item hmem]
      rfl
    · rw [swapInPanes, if_neg hmem] at h
      cases hrest : swapInPanes rest old item with
      | none => rw [hrest] at h; simp at h
      | some rest' =>
        rw [hrest] at h
        simp only [Option.map_some'] at h
        injection h with h
        obtain ⟨pi, pane0, hget, hmem0, hset⟩ := ih rest' hrest
        exact ⟨pi + 1, pane0, hget, hmem0, by rw [← h, hset]; rfl⟩

theorem GuestPortalBinding.setActiveEditorProxy_none_eq (s : GuestPortalBinding) :
    s.setActiveEditorProxy none = s.replaceActivePaneItem PaneItem.empty := rfl

theorem GuestPortalBinding.setActiveEditorProxy_some_shape
    (s : GuestPortalBinding) (ep : EditorProxy) (s' : GuestPortalBinding)
    (h : s.setActiveEditorProxy (some ep) = some s') :
    ∃ w c,
      s' = { (s.resolveEditorBinding ep).1 with
             activeEditorBinding := some (s.resolveEditorBinding ep).2,
             workspace := w,
             activePaneItem :=
               some (PaneItem.editor (s.resolveEditorBinding ep).2.editor),
             newActivePaneItem := none,
             subscriptionDisposeCount := c,
             activePaneItemDestroySubscription :=
               some (PaneItem.editor (s.resolveEditorBinding ep).2.editor, true),
             autoscrollLog := (s.resolveEditorBinding ep).1.autoscrollLog ++
               [(s.resolveEditorBinding ep).2.editor] } := by
  cases hr : ({ (s.resolveEditorBinding ep).1 with
      activeEditorBinding := some (s.resolveEditorBinding ep).2 } :
        GuestPortalBinding).replaceActivePaneItem
      (PaneItem.editor (s.resolveEditorBinding ep).2.editor) with
  | none =>
    simp [GuestPortalBinding.setActiveEditorProxy, hr] at h
  | some s3 =>
    simp only [GuestPortalBinding.setActiveEditorProxy, hr, Option.map_some'] at h
    injection h with h
    subst h
    obtain ⟨w, c, h3⟩ := GuestPortalBinding.replaceActivePaneItem_shape _ _ _ hr
    exact ⟨w, c, by rw [h3]⟩

theorem GuestPortalBinding.runProxies_append (s : GuestPortalBinding)
    (ps : List (Option EditorProxy)) (p : Option EditorProxy) :
    s.runProxies (ps ++ [p]) =
      match s.runProxies ps with
      | none => none
      | some t => t.setActiveEditorProxy p := by
  induction ps generalizing s with
  | nil =>
    cases h : s.setActiveEditorProxy p <;>
      simp [GuestPortalBinding.runProxies, h]
  | cons q qs ih =>
    cases h : s.setActiveEditorProxy q <;>
      simp [GuestPortalBinding.runProxies, h, ih]

theorem GuestPortalBinding.resolveBufferBinding_noDup (s : GuestPortalBinding)
    (bp : BufferProxy) (hb : NoDupKeys s.bufferBindingsByBufferProxy) :
    NoDupKeys (s.resolveBufferBinding bp).1.bufferBindingsByBufferProxy ∧
      (s.resolveBufferBinding bp).1.editorBindingsByEditorProxy =
        s.editorBindingsByEditorProxy := by
  cases hg : mapGet s.bufferBindingsByBufferProxy bp with
  | none =>
    rw [GuestPortalBinding.resolveBufferBinding_miss s bp hg]
    exact ⟨noDupKeys_mapSet _ _ _ hb, rfl⟩
  | some bb =>
    rw [GuestPortalBinding.resolveBufferBinding_hit s bp bb hg]
    exact ⟨hb, rfl⟩

theorem GuestPortalBinding.resolveEditorBinding_noDup (s : GuestPortalBinding)
    (ep : EditorProxy) (he : NoDupKeys s.editorBindingsByEditorProxy)
    (hb : NoDupKeys s.bufferBindingsByBufferProxy) :
    NoDupKeys (s.resolveEditorBinding ep).1.editorBindingsByEditorProxy ∧
      NoDupKeys (s.resolveEditorBinding ep).1.bufferBindingsByBufferProxy := by
  cases hg : mapGet s.editorBindingsByEditorProxy ep with
  | none =>
    rw [GuestPortalBinding.resolveEditorBinding_miss s ep hg]
    obtain ⟨hb', heq⟩ :=
      GuestPortalBinding.resolveBufferBinding_noDup s ep.bufferProxy hb
    refine ⟨?_, hb'⟩
    exact noDupKeys_mapSet _ _ _ (by rw [heq]; exact he)
  | some eb =>
    rw [GuestPortalBinding.resolveEditorBinding_hit s ep eb hg]
    exact ⟨he, hb⟩

theorem GuestPortalBinding.setActiveEditorProxy_noDup (s : GuestPortalBinding)
    (p : Option EditorProxy) (s' : GuestPortalBinding)
    (h : s.setActiveEditorProxy p = some s')
    (he : NoDupKeys s.editorBindingsByEditorProxy)
    (hb : NoDupKeys s.bufferBindingsByBufferProxy) :
    NoDupKeys s'.editorBindingsByEditorProxy ∧
      NoDupKeys s'.bufferBindingsByBufferProxy := by
  cases p with
  | none =>
    rw [GuestPortalBinding.setActiveEditorProxy_none_eq] at h
    obtain ⟨w, c, rfl⟩ := GuestPortalBinding.replaceActivePaneItem_shape _ _ _ h
    exact ⟨he, hb⟩
  | some ep =>
    obtain ⟨w, c, rfl⟩ := GuestPortalBinding.setActiveEditorProxy_some_shape _ _ _ h
    exact ⟨(GuestPortalBinding.resolveEditorBinding_noDup s ep he hb).1,
           (GuestPortalBinding.resolveEditorBinding_noDup s ep he hb).2⟩

theorem GuestPortalBinding.runProxies_noDup (ps : List (Option EditorProxy)) :
    ∀ s s' : GuestPortalBinding, s.runProxies ps = some s' →
      NoDupKeys s.editorBindingsByEditorProxy →
      NoDupKeys s.bufferBindingsByBufferProxy →
      NoDupKeys s'.editorBindingsByEditorProxy ∧
        NoDupKeys s'.bufferBindingsByBufferProxy := by
  induction ps with
  | nil =>
    intro s s' h he hb
    simp [GuestPortalBinding.runProxies] at h
    subst h
    exact ⟨he, hb⟩
  | cons q qs ih =>
    intro s s' h he hb
    cases hq : s.setActiveEditorProxy q with
    | none => simp [GuestPortalBinding.runProxies, hq] at h
    | some s1 =>
      simp only [GuestPortalBinding.runProxies, hq] at h
      obtain ⟨he1, hb1⟩ :=
        GuestPortalBinding.setActiveEditorProxy_noDup s q s1 hq he hb
      exact ih s1 s' h he1 hb1

/-- C1: Whenever `setActiveEditorProxy` completes, a null argument makes the
displayed pane item the EmptyPortalPaneItem placeholder, a non-null
argument makes it the editor view of the binding mapped to that proxy,
and the placeholder is displayed if and only if the argument was null —
in particular, after any successful call sequence the placeholder is
displayed if and only if the most recent call received null. -/
theorem GuestPortalBinding.setActiveEditorProxy_placeholder_iff :
    (∀ (s : GuestPortalBinding) (p : Option EditorProxy)
       (s' : GuestPortalBinding),
      s.setActiveEditorProxy p = some s' →
        ((p = none → s'.activePaneItem = some PaneItem.empty) ∧
         (∀ ep, p = some ep →
           ∃ eb, mapGet s'.editorBindingsByEditorProxy ep = some eb ∧
             s'.activePaneItem = some (PaneItem.editor eb.editor)) ∧
         (s'.activePaneItem = some PaneItem.empty ↔ p = none))) ∧
    (∀ (s : GuestPortalBinding) (ps : List (Option EditorProxy))
       (p : Option EditorProxy) (s' : GuestPortalBinding),
      s.runProxies (ps ++ [p]) = some s' →
        (s'.activePaneItem = some PaneItem.empty ↔ p = none)) := by
  have main : ∀ (s : GuestPortalBinding) (p : Option EditorProxy)
      (s' : GuestPortalBinding),
      s.setActiveEditorProxy p = some s' →
        ((p = none → s'.activePaneItem = some PaneItem.empty) ∧
         (∀ ep, p = some ep →
           ∃ eb, mapGet s'.editorBindingsByEditorProxy ep = some eb ∧
             s'.activePaneItem = some (PaneItem.editor eb.editor)) ∧
         (s'.activePaneItem = some PaneItem.empty ↔ p = none)) := by
    intro s p s' h
    cases p with
    | none =>
      rw [GuestPortalBinding.setActiveEditorProxy_none_eq] at h
      obtain ⟨w, c, rfl⟩ := GuestPortalBinding.replaceActivePaneItem_shape _ _ _ h
      refine ⟨fun _ => rfl, fun ep hep => Option.noConfusion hep, ?_⟩
      simp
    | some ep =>
      obtain ⟨w, c, rfl⟩ := GuestPortalBinding.setActiveEditorProxy_some_shape _ _ _ h
      refine ⟨fun hne => Option.noConfusion hne, ?_, ?_⟩
      · intro ep' hep'
        injection hep' with hep'
        subst hep'
        exact ⟨(s.resolveEditorBinding ep).2,
               GuestPortalBinding.resolveEditorBinding_mapGet s ep, rfl⟩
      · simp
  refine ⟨main, ?_⟩
  intro s ps p s' h
  rw [GuestPortalBinding.runProxies_append] at h
  cases hps : s.runProxies ps with
  | none => simp [hps] at h
  | some t =>
    simp only [hps] at h
    exact (main t p s' h).2.2

/-- Witness for C1 at a concrete input: activating the null proxy on a
freshly joined binding succeeds and displays the placeholder. -/
theorem GuestPortalBinding.setActiveEditorProxy_placeholder_iff_witness :
    gpExample.setActiveEditorProxy none = some gpExampleAfterNone ∧
    (gpExampleAfterNone.activePaneItem = some PaneItem.empty ↔
      (none : Option EditorProxy) = none) := by
  have h : gpExample.setActiveEditorProxy none = some gpExampleAfterNone := by
    rfl
  exact ⟨h,
    (GuestPortalBinding.setActiveEditorProxy_placeholder_iff.1
      gpExample none gpExampleAfterNone h).2.2⟩

/-- C2: Across any successful sequence of `setActiveEditorProxy` calls the
two proxy-to-binding maps keep at most one binding per proxy, and
activating an editor proxy already present in the map reuses its
EditorBinding — both maps, the allocation-id supply and all four
allocation counters are unchanged, so no new TextBuffer, TextEditor,
BufferBinding or EditorBinding is constructed, and the existing binding's
editor becomes the displayed view. -/
theorem GuestPortalBinding.binding_maps_unique_and_reuse :
    (∀ (s : GuestPortalBinding) (ps : List (Option EditorProxy))
       (s' : GuestPortalBinding),
      s.runProxies ps = some s' →
      NoDupKeys s.editorBindingsByEditorProxy →
      NoDupKeys s.bufferBindingsByBufferProxy →
      NoDupKeys s'.editorBindingsByEditorProxy ∧
        NoDupKeys s'.bufferBindingsByBufferProxy) ∧
    (∀ (s : GuestPortalBinding) (ep : EditorProxy) (eb : EditorBinding)
       (s' : GuestPortalBinding),
      mapGet s.editorBindingsByEditorProxy ep = some eb →
      s.setActiveEditorProxy (some ep) = some s' →
      s'.editorBindingsByEditorProxy = s.editorBindingsByEditorProxy ∧
      s'.bufferBindingsByBufferProxy = s.bufferBindingsByBufferProxy ∧
      s'.nextId = s.nextId ∧
      s'.allocatedBuffers = s.allocatedBuffers ∧
      s'.allocatedEditors = s.allocatedEditors ∧
      s'.allocatedBufferBindings = s.allocatedBufferBindings ∧
      s'.allocatedEditorBindings = s.allocatedEditorBindings ∧
      s'.activeEditorBinding = some eb ∧
      s'.activePaneItem = some (PaneItem.editor eb.editor)) := by
  refine ⟨fun s ps s' h he hb =>
    GuestPortalBinding.runProxies_noDup ps s s' h he hb, ?_⟩
  intro s ep eb s' hmem h
  obtain ⟨w, c, rfl⟩ := GuestPortalBinding.setActiveEditorProxy_some_shape _ _ _ h
  have hres : s.resolveEditorBinding ep = (s, eb) :=
    GuestPortalBinding.resolveEditorBinding_hit s ep eb hmem
  simp [hres]

/-- Witness for C2 at a concrete input: activating a fresh proxy keeps the
maps duplicate-free, and activating the same proxy again changes neither
the maps nor the allocation supply. -/
theorem GuestPortalBinding.binding_maps_unique_and_reuse_witness :
    (NoDupKeys gpExampleAfterOpen.editorBindingsByEditorProxy ∧
     NoDupKeys gpExampleAfterOpen.bufferBindingsByBufferProxy) ∧
    (gpExampleAfterTwo.editorBindingsByEditorProxy =
       gpExampleAfterOpen.editorBindingsByEditorProxy ∧
     gpExampleAfterTwo.nextId = gpExampleAfterOpen.nextId) := by
  have h1 : gpExample.runProxies [some epExample] = some gpExampleAfterOpen := by
    rfl
  have h2 : gpExampleAfterOpen.setActiveEditorProxy (some epExample) =
      some gpExampleAfterTwo := by
    rfl
  have h3 : mapGet gpExampleAfterOpen.editorBindingsByEditorProxy epExample =
      some { editor := 1, buffer := 0 } := by
    rfl
  refine ⟨GuestPortalBinding.binding_maps_unique_and_reuse.1
      gpExample [some epExample] gpExampleAfterOpen h1 (by decide) (by decide), ?_⟩
  have hr := GuestPortalBinding.binding_maps_unique_and_reuse.2
    gpExampleAfterOpen epExample { editor := 1, buffer := 0 } gpExampleAfterTwo h3 h2
  exact ⟨hr.1, hr.2.2.1⟩

/-- C3 (amended): initialize returns false without raising both when
joinPortal yields a null portal and when it throws; the throw path adds
exactly one dismissable error notification while the null-portal path
adds none; in both failure cases no delegate is registered and the
buffer/editor binding maps are untouched; on success the binding
registers itself as the portal's delegate and returns true. -/
theorem GuestPortalBinding.initializePortal_behavior :
    ∀ (s : GuestPortalBinding) (p : Portal) (e : JoinError),
      ((s.initializePortal (JoinResult.success p)).2 = true ∧
       (s.initializePortal (JoinResult.success p)).1.portal =
         some { p with delegateSet := true }) ∧
      ((s.initializePortal JoinResult.nullPortal).2 = false ∧
       (s.initializePortal JoinResult.nullPortal).1.notifications =
         s.notifications ∧
       (s.initializePortal JoinResult.nullPortal).1.portal = none ∧
       (s.initializePortal JoinResult.nullPortal).1.editorBindingsByEditorProxy =
         s.editorBindingsByEditorProxy ∧
       (s.initializePortal JoinResult.nullPortal).1.bufferBindingsByBufferProxy =
         s.bufferBindingsByBufferProxy) ∧
      ((s.initializePortal (JoinResult.failure e)).2 = false ∧
       (s.initializePortal (JoinResult.failure e)).1.portal = s.portal ∧
       (∃ n, (s.initializePortal (JoinResult.failure e)).1.notifications =
           s.notifications ++ [n] ∧ n.kind = "error" ∧ n.dismissable = true) ∧
       (s.initializePortal (JoinResult.failure e)).1.editorBindingsByEditorProxy =
         s.editorBindingsByEditorProxy ∧
       (s.initializePortal (JoinResult.failure e)).1.bufferBindingsByBufferProxy =
         s.bufferBindingsByBufferProxy) := by
  intro s p e
  refine ⟨⟨rfl, rfl⟩, ⟨rfl, rfl, rfl, rfl, rfl⟩, rfl, ?_, ?_, ?_, ?_⟩
  · cases e <;> rfl
  · cases e with
    | portalNotFound => exact ⟨_, rfl, rfl, rfl⟩
    | other m => exact ⟨_, rfl, rfl, rfl⟩
  · cases e <;> rfl
  · cases e <;> rfl

/-- C3 counterexample: initializing a fresh binding when joinPortal yields
a null portal returns false but produces no user-visible notification —
`didFailToJoin` runs only on the throw path — contrary to the claim that
a notification is produced in both failure cases. -/
theorem GuestPortalBinding.initializePortal_nullPortal_no_notification :
    ((GuestPortalBinding.new ("portal-1") wsExample).initializePortal
        JoinResult.nullPortal).1.notifications = [] ∧
    ((GuestPortalBinding.new ("portal-1") wsExample).initializePortal
        JoinResult.nullPortal).2 = false :=
  ⟨rfl, rfl⟩

/-- C4 (amended): dispose is guarded by no disposed flag — every call
performs the full teardown again: it destroys the active pane item (when
set) and the empty portal item, disposes the destroy subscription
whenever the field is set, and fires the didDispose callback, leaving
`activePaneItem` set; a repeated call therefore repeats every side
effect. -/
theorem GuestPortalBinding.dispose_repeats_teardown :
    ∀ s : GuestPortalBinding,
      s.dispose.didDisposeCount = s.didDisposeCount + 1 ∧
      s.dispose.destroyedItems = s.destroyedItems ++
        (match s.activePaneItem with
         | some item => [item]
         | none => []) ++ [PaneItem.empty] ∧
      s.dispose.subscriptionDisposeCount = s.subscriptionDisposeCount +
        (match s.activePaneItemDestroySubscription with
         | some _ => 1
         | none => 0) ∧
      s.dispose.activePaneItem = s.activePaneItem := by
  intro s
  cases hs : s.activePaneItemDestroySubscription <;>
    cases ha : s.activePaneItem <;>
      simp [GuestPortalBinding.dispose, hs, ha]

/-- C4 counterexample: disposing a freshly joined binding twice fires the
didDispose callback twice and destroys the empty portal item twice — the
teardown is not performed exactly once. -/
theorem GuestPortalBinding.dispose_twice_double_teardown :
    gpExample.dispose.dispose.didDisposeCount = 2 ∧
    gpExample.dispose.dispose.destroyedItems =
      [PaneItem.empty, PaneItem.empty] :=
  ⟨rfl, rfl⟩

/-- C5: hostDidClosePortal and hostDidLoseConnection clear the
activePaneItem tracking without destroying any pane item and without
touching the binding maps, the workspace or the destroy subscription, and
each appends one informational notification distinct from the other's. -/
theorem GuestPortalBinding.host_disconnect_clears_tracking :
    ∀ s : GuestPortalBinding,
      (s.hostDidClosePortal.activePaneItem = none ∧
       s.hostDidClosePortal.destroyedItems = s.destroyedItems ∧
       s.hostDidClosePortal.editorBindingsByEditorProxy =
         s.editorBindingsByEditorProxy ∧
       s.hostDidClosePortal.bufferBindingsByBufferProxy =
         s.bufferBindingsByBufferProxy ∧
       s.hostDidClosePortal.workspace = s.workspace ∧
       s.hostDidClosePortal.activePaneItemDestroySubscription =
         s.activePaneItemDestroySubscription ∧
       s.hostDidClosePortal.notifications =
         s.notifications ++ [portalClosedNotification]) ∧
      (s.hostDidLoseConnection.activePaneItem = none ∧
       s.hostDidLoseConnection.destroyedItems = s.destroyedItems ∧
       s.hostDidLoseConnection.editorBindingsByEditorProxy =
         s.editorBindingsByEditorProxy ∧
       s.hostDidLoseConnection.bufferBindingsByBufferProxy =
         s.bufferBindingsByBufferProxy ∧
       s.hostDidLoseConnection.workspace = s.workspace ∧
       s.hostDidLoseConnection.activePaneItemDestroySubscription =
         s.activePaneItemDestroySubscription ∧
       s.hostDidLoseConnection.notifications =
         s.notifications ++ [connectionLostNotification]) ∧
      portalClosedNotification ≠ connectionLostNotification := by
  intro s
  refine ⟨⟨rfl, rfl, rfl, rfl, rfl, rfl, rfl⟩,
          ⟨rfl, rfl, rfl, rfl, rfl, rfl, rfl⟩, ?_⟩
  decide

/-- C6: replaceActivePaneItem swaps the displayed view in place — when an
active pane item exists, the new item takes the old item's position in
the pane holding it and the old item is removed, leaving the open log
untouched; otherwise the new item goes through workspace.open; in both
cases a destroy observer is registered on the new item whose callback is
leave, so destroying the displayed view disposes the portal. -/
theorem GuestPortalBinding.replaceActivePaneItem_swap_or_open :
    ∀ (s : GuestPortalBinding) (item : PaneItem) (s' : GuestPortalBinding),
      s.replaceActivePaneItem item = some s' →
      ((∀ old, s.activePaneItem = some old →
          ∃ pi pane, s.workspace.panes.get? pi = some pane ∧ old ∈ pane ∧
            s'.workspace.panes =
              s.workspace.panes.set pi (replaceFirst pane old item) ∧
            s'.workspace.opened = s.workspace.opened) ∧
       (s.activePaneItem = none →
          s'.workspace = s.workspace.openItem item) ∧
       s'.activePaneItemDestroySubscription = some (item, true) ∧
       (∀ (t : GuestPortalBinding) (p : Portal),
          t.activePaneItemDestroySubscription = some (item, true) →
          t.portal = some p →
          ∃ t', t.destroyPaneItem item = some t' ∧
            ∃ q, t'.portal = some q ∧ q.disposed = true)) := by
  intro s item s' h
  obtain ⟨hswap, hopen⟩ :=
    GuestPortalBinding.replaceActivePaneItem_workspace s item s' h
  obtain ⟨w, c, hs'⟩ := GuestPortalBinding.replaceActivePaneItem_shape s item s' h
  refine ⟨?_, hopen, by rw [hs'], ?_⟩
  · intro old hold
    obtain ⟨panes', hsw, hw⟩ := hswap old hold
    obtain ⟨pi, pane, hget, hmem, hset⟩ := swapInPanes_spec _ _ _ _ hsw
    exact ⟨pi, pane, hget, hmem, by rw [hw, hset], by rw [hw]⟩
  · intro t p hsub hportal
    have hred : t.destroyPaneItem item =
        some { t with
          workspace := { t.workspace with
            panes := t.workspace.panes.map (fun pane => removeFirst pane item) },
          destroyedItems := t.destroyedItems ++ [item],
          portal := some p.disposeModel } := by
      simp [GuestPortalBinding.destroyPaneItem, GuestPortalBinding.leave,
        hsub, hportal]
    exact ⟨_, hred, p.disposeModel, rfl, rfl⟩

/-- Witness for C6 at a concrete input: on a fresh binding with no active
pane item, replacing with the placeholder goes through workspace.open and
registers the destroy observer on it. -/
theorem GuestPortalBinding.replaceActivePaneItem_swap_or_open_witness :
    gpExample.replaceActivePaneItem PaneItem.empty = some gpExampleAfterNone ∧
    gpExampleAfterNone.workspace = gpExample.workspace.openItem PaneItem.empty ∧
    gpExampleAfterNone.activePaneItemDestroySubscription =
      some (PaneItem.empty, true) := by
  have h : gpExample.replaceActivePaneItem PaneItem.empty =
      some gpExampleAfterNone := rfl
  have hr := GuestPortalBinding.replaceActivePaneItem_swap_or_open
    gpExample PaneItem.empty gpExampleAfterNone h
  exact ⟨h, hr.2.1 rfl, hr.2.2.1⟩

/-- C8: siteDidJoin and siteDidLeave only add one informational
notification and emit one did-change event; activePaneItem,
activeEditorBinding, both binding maps, the workspace, the portal and the
destroyed-item log are identical before and after. -/
theorem GuestPortalBinding.site_join_leave_frame :
    ∀ (s : GuestPortalBinding) (i : Nat) (s' : GuestPortalBinding),
      (s.siteDidJoin i = some s' →
        s'.activePaneItem = s.activePaneItem ∧
        s'.activeEditorBinding = s.activeEditorBinding ∧
        s'.editorBindingsByEditorProxy = s.editorBindingsByEditorProxy ∧
        s'.bufferBindingsByBufferProxy = s.bufferBindingsByBufferProxy ∧
        s'.workspace = s.workspace ∧
        s'.portal = s.portal ∧
        s'.destroyedItems = s.destroyedItems ∧
        s'.didChangeCount = s.didChangeCount + 1 ∧
        ∃ n, n.kind = "info" ∧ s'.notifications = s.notifications ++ [n]) ∧
      (s.siteDidLeave i = some s' →
        s'.activePaneItem = s.activePaneItem ∧
        s'.activeEditorBinding = s.activeEditorBinding ∧
        s'.editorBindingsByEditorProxy = s.editorBindingsByEditorProxy ∧
        s'.bufferBindingsByBufferProxy = s.bufferBindingsByBufferProxy ∧
        s'.workspace = s.workspace ∧
        s'.portal = s.portal ∧
        s'.destroyedItems = s.destroyedItems ∧
        s'.didChangeCount = s.didChangeCount + 1 ∧
        ∃ n, n.kind = "info" ∧ s'.notifications = s.notifications ++ [n]) := by
  intro s i s'
  constructor
  · intro h
    cases hp : s.portal with
    | none => simp [GuestPortalBinding.siteDidJoin, hp] at h
    | some portal =>
      cases h1 : mapGet portal.identities 1 with
      | none => simp [GuestPortalBinding.siteDidJoin, hp, h1] at h
      | some hostLogin =>
        cases h2 : mapGet portal.identities i with
        | none => simp [GuestPortalBinding.siteDidJoin, hp, h1, h2] at h
        | some siteLogin =>
          simp only [GuestPortalBinding.siteDidJoin, hp, h1, h2] at h
          injection h with h
          subst h
          exact ⟨rfl, rfl, rfl, rfl, rfl, rfl, rfl, rfl, _, rfl, rfl⟩
  · intro h
    cases hp : s.portal with
    | none => simp [GuestPortalBinding.siteDidLeave, hp] at h
    | some portal =>
      cases h1 : mapGet portal.identities 1 with
      | none => simp [GuestPortalBinding.siteDidLeave, hp, h1] at h
      | some hostLogin =>
        cases h2 : mapGet portal.identities i with
        | none => simp [GuestPortalBinding.siteDidLeave, hp, h1, h2] at h
        | some siteLogin =>
          simp only [GuestPortalBinding.siteDidLeave, hp, h1, h2] at h
          injection h with h
          subst h
          exact ⟨rfl, rfl, rfl, rfl, rfl, rfl, rfl, rfl, _, rfl, rfl⟩

/-- Witness for C8 at a concrete input: site 2 joining the example binding
succeeds and only bumps the did-change count. -/
theorem GuestPortalBinding.site_join_leave_frame_witness :
    gpExample.siteDidJoin 2 = some gpExampleJoined ∧
    gpExampleJoined.didChangeCount = gpExample.didChangeCount + 1 ∧
    gpExampleJoined.activePaneItem = gpExample.activePaneItem := by
  have h : gpExample.siteDidJoin 2 = some gpExampleJoined := rfl
  have hr := (GuestPortalBinding.site_join_leave_frame gpExample 2 gpExampleJoined).1 h
  exact ⟨h, hr.2.2.2.2.2.2.2.1, hr.1⟩

/-- C9 counterexample: calling leave before a successful initialize raises
(this.portal is undefined, so this.portal.dispose() throws a TypeError),
contrary to the claim that leave never raises. -/
theorem GuestPortalBinding.leave_before_join_raises :
    (GuestPortalBinding.new ("portal-1") wsExample).leave = none := rfl

/-- C9 (amended): once initialize has succeeded, leave disposes the
underlying Portal and is idempotent — repeating it yields the same
already-disposed state and does not raise; before a successful initialize
it raises. -/
theorem GuestPortalBinding.leave_after_join_idempotent :
    ∀ (s : GuestPortalBinding) (p : Portal), s.portal = some p →
      s.leave = some { s with portal := some p.disposeModel } ∧
      ({ s with portal := some p.disposeModel } : GuestPortalBinding).leave =
        some { s with portal := some p.disposeModel } := by
  intro s p hp
  constructor
  · simp [GuestPortalBinding.leave, hp]
  · rfl

/-- Witness for C9 at a concrete input: the example binding holds a portal,
and leave disposes it. -/
theorem GuestPortalBinding.leave_after_join_idempotent_witness :
    gpExample.portal = some portalExample ∧
    gpExample.leave =
      some { gpExample with portal := some portalExample.disposeModel } :=
  ⟨rfl, (GuestPortalBinding.leave_after_join_idempotent gpExample portalExample rfl).1⟩

/-- C7 counterexample: for a file opened without a project the claim
derives the bare name behind the scheme marker, but the test pins
getPath() to the scheme marker followed by the host's full absolute
path. -/
theorem remote_path_standalone_not_bare_name :
    claimedGetPath (HostFile.standalone ("/tmp/teletype/standalone.js")) =
      "remote:standalone.js" ∧
    remoteGetPath (HostFile.standalone ("/tmp/teletype/standalone.js")) =
      "remote:/tmp/teletype/standalone.js" ∧
    claimedGetPath (HostFile.standalone ("/tmp/teletype/standalone.js")) ≠
      remoteGetPath (HostFile.standalone ("/tmp/teletype/standalone.js")) := by
  refine ⟨by decide, rfl, by decide⟩

/-- C7 (amended): the synthetic path derivation is deterministic behind the
fixed scheme marker — untitled documents use the placeholder name, a file
opened without a project uses its full host path, a file inside a project
uses the path relative to the project root's parent directory — and the
pane item's title is the fixed title prefix followed by the base name of
the derived path, matching the test's pinned values on each shape. -/
theorem remote_path_derivation :
    (remoteGetPath HostFile.untitled = "remote:untitled" ∧
     remoteTitle HostFile.untitled = "Remote Buffer: untitled") ∧
    (∀ p, remoteGetPath (HostFile.standalone p) = "remote:" ++ p) ∧
    remoteTitle (HostFile.standalone ("/tmp/teletype/standalone.js")) =
      "Remote Buffer: standalone.js" ∧
    (∀ d r, remoteGetPath (HostFile.inProject d r) =
      "remote:" ++ (d ++ "/" ++ r)) ∧
    remoteTitle (HostFile.inProject ("some-project") ("sub-dir/file.js")) =
      "Remote Buffer: file.js" := by
  refine ⟨⟨rfl, by decide⟩, fun p => rfl, by decide, fun d r => rfl, by decide⟩

/-- C10: the first synchronous statement of handleInitialClick removes the
element's click handler before any asynchronous initialisation begins and
nothing reinstalls it, so for any number of clicks on a fresh indicator
the initialisation body runs at most once — exactly once as soon as any
click happened — and the handler is gone after the first click. -/
theorem PortalStatusBarIndicator.handleInitialClick_at_most_once :
    ∀ n : Nat,
      (PortalStatusBarIndicator.clicks n).initialClickHandlerRuns ≤ 1 ∧
      (PortalStatusBarIndicator.clicks n).initialClickHandlerRuns =
        (if n = 0 then 0 else 1) ∧
      (PortalStatusBarIndicator.clicks n).onclickInstalled = decide (n = 0) := by
  intro n
  induction n with
  | zero =>
    refine ⟨?_, ?_, ?_⟩ <;>
      simp [PortalStatusBarIndicator.clicks, PortalStatusBarIndicator.new]
  | succ m ih =>
    obtain ⟨hle, hruns, hinst⟩ := ih
    by_cases hm : m = 0
    · subst hm
      refine ⟨?_, ?_, ?_⟩ <;>
        simp [PortalStatusBarIndicator.clicks, PortalStatusBarIndicator.click,
          PortalStatusBarIndicator.new]
    · have hinst' : (PortalStatusBarIndicator.clicks m).onclickInstalled = false := by
        simp [hinst, hm]
      have hruns' :
          (PortalStatusBarIndicator.clicks m).initialClickHandlerRuns = 1 := by
        simp [hruns, hm]
      refine ⟨?_, ?_, ?_⟩ <;>
        simp [PortalStatusBarIndicator.clicks, PortalStatusBarIndicator.click,
          hinst', hruns', hm]
